import Mathlib

/-!
Shallow embedding of the price-matching and quotation-calculation core of the
PricingApp repository.

Sources embedded here:
* `NewItineraryAnalyzer.matchPrices`, `categoryMatches`,
  `generateMissingPriceHint`, `compileAnalysis` (server analyzer module);
* `calculatePricing` (NewTourPage component);
* `calculateMockTotals` (mock app component);
* `PricingSummaryPanel.formatCurrency` and the final-summary rounding
  (`Math.round(x / rounding_increment) * rounding_increment`);
* the CSV `base_cost` parsing block of `registerRoutes`.

JavaScript numbers are modelled as `ℚ`, strings as Lean `String` with all
computations performed on `List Char`.  Optional / nullable fields are
`Option`; JavaScript truthiness of a string is "present and non-empty", of a
number "present and non-zero".

Presentation-only output fields of `compileAnalysis` (`services_by_day`, the
`recommendations` advisory strings) are not modelled: they echo the input
grouped by day and render percentages; no verified property refers to them.
-/

namespace PricingApp

/-! ### JavaScript string primitives -/

/-- Embeds `String.prototype.toLowerCase` (ASCII-adequate for this data). -/
def jsLower (s : String) : String := ⟨s.toList.map Char.toLower⟩

/-- Auxiliary: does the second list occur as a contiguous run of the first? -/
def listContainsRun (needle : List Char) : List Char → Bool
  | [] => needle.isEmpty
  | c :: t => needle.isPrefixOf (c :: t) || listContainsRun needle t

/-- Embeds `hay.includes(needle)` on strings. -/
def jsIncludes (hay needle : String) : Bool := listContainsRun needle.toList hay.toList

/-- JavaScript `x || d` for an optional string `x`: `undefined`/`null` and the
empty string are falsy. -/
def jsOrStr (o : Option String) (d : String) : String :=
  match o with
  | none => d
  | some s => if s = "" then d else s

/-- Embeds `Array.prototype.join(' ')`. -/
def joinSpace : List String → String
  | [] => ""
  | [s] => s
  | s :: rest => s ++ " " ++ joinSpace rest

/-! ### Data model (shared schema and analyzer interfaces) -/

/-- Embeds `cost_basis` union type of the schema and the analyzer. -/
inductive CostBasis
  | per_person
  | per_group
  | per_night
  | per_day
  | flat_rate
deriving DecidableEq

/-- Embeds `ServiceCategory` union type of the analyzer module. -/
inductive ServiceCategory
  | transportation
  | guide_personnel
  | entrance_fees
  | accommodation
  | meals
  | optional_extras
  | other
deriving DecidableEq

/-- The string a `ServiceCategory` value is: in the source these are string
literals, used directly as search terms. -/
def categoryStr : ServiceCategory → String
  | .transportation => "transportation"
  | .guide_personnel => "guide_personnel"
  | .entrance_fees => "entrance_fees"
  | .accommodation => "accommodation"
  | .meals => "meals"
  | .optional_extras => "optional_extras"
  | .other => "other"

/-- Embeds `DetectedService` interface of the analyzer module. -/
structure DetectedService where
  day : ℤ
  category : ServiceCategory
  description : String
  quantity : ℚ
  cost_basis : CostBasis
  location : Option String := none
  notes : Option String := none
deriving DecidableEq

/-- A catalog row as consumed by `matchPrices` (the `prices` table columns it
reads).  Invariant-free here: the matcher reads these fields only. -/
structure Price where
  service_name : String
  category : Option String := none
  route_name : Option String := none
  location : Option String := none
  vehicle_type : Option String := none
  cost_basis : CostBasis
  unit_price : ℚ
  currency : String
deriving DecidableEq

/-- Embeds `PriceMatch` interface of the analyzer module. -/
structure PriceMatch where
  service : DetectedService
  matched : Bool
  price : Option ℚ := none
  currency : Option String := none
  confidence : Option ℕ := none
  database_match : Option Price := none
  hint : Option String := none
deriving DecidableEq

/-! ### Matcher (`NewItineraryAnalyzer.matchPrices` and helpers) -/

/-- The `searchTerms` array: `[description.toLowerCase(), category,
location].filter(Boolean)` — the whole description is a single term. -/
def searchTermsOf (s : DetectedService) : List String :=
  (([some (jsLower s.description), some (categoryStr s.category), s.location].filterMap id).filter
    (fun t => t ≠ ""))

/-- The `dbText` comparison string: name, category, route, location and
vehicle type of the entry, truthy fields only, joined and lowercased. -/
def dbTextOf (p : Price) : String :=
  jsLower (joinSpace (([some p.service_name, p.category, p.route_name, p.location,
    p.vehicle_type].filterMap id).filter (fun t => t ≠ "")))

/-- The fixed keyword table of `categoryMatches`. -/
def categoryKeywords : ServiceCategory → List String
  | .transportation => ["transport", "transfer", "car", "vehicle", "train", "flight", "boat"]
  | .guide_personnel => ["guide", "driver", "personnel", "assistant", "representative"]
  | .entrance_fees => ["entrance", "ticket", "admission", "fee", "site"]
  | .accommodation => ["hotel", "accommodation", "resort", "cruise", "stay"]
  | .meals => ["meal", "lunch", "dinner", "breakfast", "food"]
  | .optional_extras => ["optional", "extra", "show", "activity", "special"]
  | .other => []

/-- Embeds `categoryMatches(serviceCategory, dbCategory)`: false on a falsy db
category, else some keyword of the service's category occurs in the db
category (lowercased). -/
def categoryMatches (sc : ServiceCategory) (dbCategory : Option String) : Bool :=
  match dbCategory with
  | none => false
  | some dbc =>
      if dbc = "" then false
      else (categoryKeywords sc).any (fun kw => jsIncludes (jsLower dbc) kw)

/-- The location condition of the scoring loop: both locations truthy and the
entry's location contains the service's, case-insensitively. -/
def locationMatches (sloc ploc : Option String) : Bool :=
  match sloc, ploc with
  | some sl, some pl =>
      sl ≠ "" && pl ≠ "" && jsIncludes (jsLower pl) (jsLower sl)
  | _, _ => false

/-- Number of search terms found in the comparison text. -/
def textMatchCount (s : DetectedService) (p : Price) : ℕ :=
  ((searchTermsOf s).filter (fun term => jsIncludes (dbTextOf p) (jsLower term))).length

/-- The per-entry score of the matching loop: text (10 per term, max 30) +
category (40) + location (20) + cost basis (10), then `Math.min(score, 100)`. -/
def calcScore (s : DetectedService) (p : Price) : ℕ :=
  let score0 := min 30 (textMatchCount s p * 10)
  let score1 := score0 + (if categoryMatches s.category p.category then 40 else 0)
  let score2 := score1 + (if locationMatches s.location p.location then 20 else 0)
  let score3 := score2 + (if s.cost_basis = p.cost_basis then 10 else 0)
  min score3 100

/-- The best-match accumulator loop: update `(bestScore, bestMatch)` whenever
`score > bestScore` (initial accumulator `(0, null)`). -/
def bestMatchFold (s : DetectedService) : List Price → ℕ × Option Price → ℕ × Option Price
  | [], acc => acc
  | p :: rest, acc =>
      let score := calcScore s p
      if acc.1 < score then bestMatchFold s rest (score, some p)
      else bestMatchFold s rest acc

/-- Embeds `generateMissingPriceHint(service)`. -/
def generateMissingPriceHint (s : DetectedService) : String :=
  let location := jsOrStr s.location "unknown location"
  match s.category with
  | .transportation =>
      "Add a price for: \"" ++ s.description ++ "\" in " ++ location ++
        ". Specify vehicle type and passenger capacity if applicable."
  | .guide_personnel =>
      "Add a price for: \"" ++ s.description ++ "\" in " ++ location ++
        ". Specify if it's per day or per tour."
  | .entrance_fees =>
      "Add a price for: \"" ++ s.description ++ "\" entrance ticket. Usually priced per person."
  | .accommodation =>
      "Add a price for: \"" ++ s.description ++ "\" in " ++ location ++
        ". Specify per night rate and room type."
  | .meals =>
      "Add a price for: \"" ++ s.description ++ "\". Usually priced per person."
  | .optional_extras =>
      "Add a price for: \"" ++ s.description ++ "\" optional activity."
  | .other =>
      "Add a price for: \"" ++ s.description ++ "\" in your database."

/-- The body of the per-service iteration of `matchPrices`: best entry over
the catalog, matched iff `bestScore >= 60` and a best entry exists. -/
def matchOne (s : DetectedService) (allPrices : List Price) : PriceMatch :=
  let acc := bestMatchFold s allPrices (0, none)
  match acc.2, decide (60 ≤ acc.1) with
  | some bm, true =>
      { service := s, matched := true, price := some bm.unit_price,
        currency := some bm.currency, confidence := some acc.1,
        database_match := some bm }
  | _, _ =>
      { service := s, matched := false, hint := some (generateMissingPriceHint s) }

/-- Embeds `matchPrices(services)` over a catalog snapshot: one `PriceMatch` per
service, in order. -/
def matchPrices (services : List DetectedService) (allPrices : List Price) : List PriceMatch :=
  services.map (fun s => matchOne s allPrices)

/-- Maximum score any catalog entry attains for a service (`0` on an empty
catalog, mirroring the loop's initial `bestScore = 0`). -/
def bestScoreOver (s : DetectedService) (allPrices : List Price) : ℕ :=
  allPrices.foldl (fun a p => max a (calcScore s p)) 0

/-! ### Heuristic aggregation (`NewItineraryAnalyzer.compileAnalysis`) -/

/-- One row of `pricing.breakdown_by_category`. -/
structure CategoryBreakdown where
  category : ServiceCategory
  total : ℚ
  count : ℕ
deriving DecidableEq

/-- The two running totals and the insertion-ordered `categoryTotals` map of
the totals loop. -/
structure TotalsState where
  perPersonTotal : ℚ := 0
  perGroupTotal : ℚ := 0
  categoryTotals : List CategoryBreakdown := []
deriving DecidableEq

/-- Embeds `categoryTotals` update: bump an existing bucket, else append a fresh one
(JavaScript `Map` preserves insertion order). -/
def updateCat (l : List CategoryBreakdown) (c : ServiceCategory) (amount : ℚ) :
    List CategoryBreakdown :=
  if l.any (fun e => e.category = c) then
    l.map (fun e => if e.category = c then
      { e with total := e.total + amount, count := e.count + 1 } else e)
  else l ++ [{ category := c, total := amount, count := 1 }]

/-- One iteration of the totals loop over `servicesWithPrices`: skip a falsy
price (`if (!match.price) continue`), else accumulate by cost basis and track
the category bucket. -/
def totalsStep (numPeople : ℚ) (st : TotalsState) (m : PriceMatch) : TotalsState :=
  match m.price with
  | none => st
  | some price =>
      if price = 0 then st
      else
        let quantity := m.service.quantity
        match m.service.cost_basis with
        | .per_person =>
            { st with
              perPersonTotal := st.perPersonTotal + price * quantity,
              categoryTotals :=
                updateCat st.categoryTotals m.service.category (price * quantity * numPeople) }
        | _ =>
            { st with
              perGroupTotal := st.perGroupTotal + price * quantity,
              categoryTotals :=
                updateCat st.categoryTotals m.service.category (price * quantity) }

/-- Unique-preserving-first-occurrence, as `Array.from(new Set(...))`. -/
def dedupFirst (seen : List String) : List String → List String
  | [] => []
  | x :: t => if x ∈ seen then dedupFirst seen t else x :: dedupFirst (x :: seen) t

/-- Embeds `summary` block of `AnalysisResult`. -/
structure AnalysisSummary where
  total_days : ℤ
  total_people : ℚ
  cities : List String
  total_services : ℕ
  services_with_prices : ℕ
  services_without_prices : ℕ
deriving DecidableEq

/-- Embeds `pricing` block of `AnalysisResult`. -/
structure AnalysisPricing where
  per_person_total : ℚ
  per_group_total : ℚ
  currency : String
  breakdown_by_category : List CategoryBreakdown
deriving DecidableEq

/-- One `missing_prices` row. -/
structure MissingPrice where
  category : ServiceCategory
  description : String
  hint : String
deriving DecidableEq

/-- Embeds `AnalysisResult` (without the presentation-only `services_by_day` and
`recommendations` fields, see the header comment). -/
structure AnalysisResult where
  summary : AnalysisSummary
  pricing : AnalysisPricing
  missing_prices : List MissingPrice
deriving DecidableEq

/-- Embeds `compileAnalysis(matches, numPeople, numDays)`: totals over matched
results with truthy prices, currency from the first matched result with the
hard-coded `"EUR"` fallback, group total adds the per-person total times
`numPeople`. -/
def compileAnalysis (matchList : List PriceMatch) (numPeople : ℚ) (numDays : ℤ) :
    AnalysisResult :=
  let servicesWithPrices := matchList.filter (fun m => m.matched)
  let servicesWithoutPrices := matchList.filter (fun m => !m.matched)
  let currency := jsOrStr (servicesWithPrices.head?.bind (fun m => m.currency)) "EUR"
  let final := servicesWithPrices.foldl (totalsStep numPeople) {}
  let cities := dedupFirst []
    ((matchList.map (fun m => m.service.location)).filterMap id |>.filter (fun s => s ≠ ""))
  { summary :=
      { total_days := numDays
        total_people := numPeople
        cities := cities
        total_services := matchList.length
        services_with_prices := servicesWithPrices.length
        services_without_prices := servicesWithoutPrices.length }
    pricing :=
      { per_person_total := final.perPersonTotal
        per_group_total := final.perGroupTotal + final.perPersonTotal * numPeople
        currency := currency
        breakdown_by_category := final.categoryTotals }
    missing_prices := servicesWithoutPrices.map (fun m =>
      { category := m.service.category
        description := m.service.description
        hint := jsOrStr m.hint "Add this service to your pricing database" }) }

/-! ### Form-based aggregation (`calculatePricing` of the NewTourPage, over
the shared schema's `ParsedItinerary` shape) -/

/-- Embeds `Service` of the shared schema. -/
structure Service where
  service : String := ""
  reason : String := ""
  quantity : Option ℚ := none
  nights : Option ℚ := none
  board : Option String := none
  unitPrice : Option ℚ := none
  included : Bool := true
  override : Option String := none
deriving DecidableEq

/-- Embeds `DailyBreakdown` of the shared schema. -/
structure DailyBreakdown where
  day : ℤ
  label : String := ""
  city_or_region : String := ""
  activities_detected : List String := []
  per_group : List Service := []
  per_person : List Service := []
  notes : Option String := none
deriving DecidableEq

/-- The `overview` block of `ParsedItinerary` (ground-handler fees omitted:
never read by the pricing code). -/
structure ItineraryOverview where
  num_days : ℤ
  num_people : ℚ
  cities_detected : List String := []
deriving DecidableEq

/-- Embeds `ParsedItinerary` of the shared schema (advisory text fields omitted). -/
structure ParsedItinerary where
  overview : ItineraryOverview
  days : List DailyBreakdown
deriving DecidableEq

/-- Embeds `PricingConfig` of the shared schema, with the schema's defaults. -/
structure PricingConfig where
  currency : String
  exchange_rate : ℚ := 1
  tax_rate : ℚ := 0.12
  markup_rate : ℚ := 0.20
  rounding_increment : ℚ := 50
  accommodation_mode : String := "per_person"
  occupancy : ℚ := 2
  single_supplement : Option ℚ := none
  profile : String := "Base"
deriving DecidableEq

/-- One `daily_totals` row of `PricingTotals`. -/
structure DailyTotal where
  day : ℤ
  net_total : ℚ
  sell_total : ℚ
deriving DecidableEq

/-- Embeds `PricingTotals` of the shared schema. -/
structure PricingTotals where
  net_per_person : ℚ
  tax_amount : ℚ
  markup_amount : ℚ
  sell_per_person : ℚ
  sell_per_group : ℚ
  daily_totals : List DailyTotal
deriving DecidableEq

/-- Embeds `service.quantity || 1`: a missing or zero quantity falls back to 1. -/
def jsQty (q : Option ℚ) : ℚ :=
  match q with
  | none => 1
  | some x => if x = 0 then 1 else x

/-- Contribution of one schema `Service` line inside the loops of
`calculatePricing` / `calculateMockTotals`: guarded by
`service.included && service.unitPrice` (truthiness), then
`unitPrice * (quantity || 1)`. -/
def svcContrib (s : Service) : ℚ :=
  match s.unitPrice with
  | none => 0
  | some up => if s.included && up ≠ 0 then up * jsQty s.quantity else 0

/-- The `dayTotal` accumulation of `calculatePricing`: per-group lines plus
per-person lines times the traveller count. -/
def dayTotalCalc (numPeople : ℚ) (d : DailyBreakdown) : ℚ :=
  (d.per_group.foldl (fun acc s => acc + svcContrib s) 0) +
    (d.per_person.foldl (fun acc s => acc + svcContrib s * numPeople) 0)

/-- Embeds `calculatePricing(itinerary, config)` of the NewTourPage: total net over
all days (per-person lines already multiplied by `num_people`), divided by
`num_people` into `netPerPerson`, then tax, compounded markup, and
`sellPerGroup = sellPerPerson * num_people`. -/
def calculatePricing (itinerary : ParsedItinerary) (config : PricingConfig) : PricingTotals :=
  let n := itinerary.overview.num_people
  let totalNet := itinerary.days.foldl (fun acc d => acc + dayTotalCalc n d) 0
  let dailyTotals := itinerary.days.map (fun d =>
    let dayTotal := dayTotalCalc n d
    ({ day := d.day, net_total := dayTotal,
       sell_total := dayTotal * (1 + config.tax_rate) * (1 + config.markup_rate) } : DailyTotal))
  let netPerPerson := totalNet / n
  let taxAmount := netPerPerson * config.tax_rate
  let markupAmount := (netPerPerson + taxAmount) * config.markup_rate
  let sellPerPerson := netPerPerson + taxAmount + markupAmount
  let sellPerGroup := sellPerPerson * n
  { net_per_person := netPerPerson
    tax_amount := taxAmount
    markup_amount := markupAmount
    sell_per_person := sellPerPerson
    sell_per_group := sellPerGroup
    daily_totals := dailyTotals }

/-- The `dayNet` accumulation of `calculateMockTotals`: per-group lines
divided by the traveller count, plus per-person lines. -/
def dayNetMock (numPeople : ℚ) (d : DailyBreakdown) : ℚ :=
  (d.per_group.foldl (fun acc s => acc + svcContrib s / numPeople) 0) +
    (d.per_person.foldl (fun acc s => acc + svcContrib s) 0)

/-- Embeds `calculateMockTotals(parsed, config)` of the mock app: per-group lines
divided by `num_people`, tax and markup both on the net (not compounded). -/
def calculateMockTotals (parsed : ParsedItinerary) (config : PricingConfig) : PricingTotals :=
  let n := parsed.overview.num_people
  let totalNet := parsed.days.foldl (fun acc d => acc + dayNetMock n d) 0
  let dailyTotals := parsed.days.map (fun d =>
    let dayNet := dayNetMock n d
    ({ day := d.day, net_total := dayNet,
       sell_total := dayNet * (1 + config.tax_rate + config.markup_rate) } : DailyTotal))
  let taxAmount := totalNet * config.tax_rate
  let markupAmount := totalNet * config.markup_rate
  let sellPerPerson := totalNet + taxAmount + markupAmount
  let sellPerGroup := sellPerPerson * n
  { net_per_person := totalNet
    tax_amount := taxAmount
    markup_amount := markupAmount
    sell_per_person := sellPerPerson
    sell_per_group := sellPerGroup
    daily_totals := dailyTotals }

/-! ### Presentation rounding (`PricingSummaryPanel.formatCurrency` and the
final-summary tiles) -/

/-- JavaScript `Math.round`: nearest integer, halves toward positive
infinity. -/
def jsRound (x : ℚ) : ℤ := ⌊x + 1 / 2⌋

/-- The numeric value every displayed figure is rounded to:
`Math.round(amount / increment) * increment` (the subsequent `toFixed(2)`
string formatting is not modelled). -/
def roundToIncrement (increment amount : ℚ) : ℚ :=
  (jsRound (amount / increment) : ℚ) * increment

/-! ### CSV `base_cost` parsing (`registerRoutes` upload handler) -/

/-- A character the regex class `[0-9.]` accepts. -/
def isDigitOrDot (c : Char) : Bool := c.isDigit || c = '.'

/-- Leftmost match of the regex `([0-9.]+)\s*([€$])`: the maximal digit/dot
run, optional whitespace, then a currency symbol; on failure the search
restarts one character later. -/
def regexPriceFind : List Char → Option (List Char × Char)
  | [] => none
  | c :: rest =>
      if isDigitOrDot c then
        let run := (c :: rest).takeWhile isDigitOrDot
        let after := ((c :: rest).dropWhile isDigitOrDot).dropWhile Char.isWhitespace
        match after with
        | sym :: _ =>
            if sym = '€' || sym = '$' then some (run, sym) else regexPriceFind rest
        | [] => regexPriceFind rest
      else regexPriceFind rest

/-- Digit run to a natural number. -/
def digitsToNat (cs : List Char) : ℕ :=
  cs.foldl (fun a c => a * 10 + (c.toNat - '0'.toNat)) 0

/-- Embeds `parseFloat` restricted to the digit/dot shapes this importer feeds it:
integer part, optional fraction; `none` models `NaN` (no digits at all). -/
def parseFloatQ (cs : List Char) : Option ℚ :=
  let intPart := cs.takeWhile Char.isDigit
  let rest := cs.dropWhile Char.isDigit
  let fracPart :=
    match rest with
    | '.' :: r => r.takeWhile Char.isDigit
    | _ => []
  if intPart.isEmpty && fracPart.isEmpty then none
  else some ((digitsToNat intPart : ℚ) + (digitsToNat fracPart : ℚ) / 10 ^ fracPart.length)

/-- Embeds `String.prototype.trim` on the character list. -/
def trimChars (cs : List Char) : List Char :=
  ((cs.dropWhile Char.isWhitespace).reverse.dropWhile Char.isWhitespace).reverse

/-- The `unitPrice` / `currency` extraction block of the CSV import: defaults
`(0, "EUR")`; a `"."` or empty cell keeps them; else the price regex, else a
plain `parseFloat` kept only when not `NaN`.  The first component is the
stored `unit_price` (`none` models `NaN`). -/
def parseBaseCost (base_cost : String) : Option ℚ × String :=
  let baseCostStr := trimChars base_cost.toList
  if baseCostStr.isEmpty || baseCostStr = ['.'] then (some 0, "EUR")
  else
    match regexPriceFind baseCostStr with
    | some (run, sym) => (parseFloatQ run, if sym = '€' then "EUR" else "USD")
    | none =>
        match parseFloatQ baseCostStr with
        | some v => (some v, "EUR")
        | none => (some 0, "EUR")

/-! ### Concrete instances used by scenario theorems -/

/-- The default pricing configuration of the NewTourPage state. -/
def cfgDefault : PricingConfig := { currency := "EUR" }

/-- A pricing configuration whose requested currency is USD. -/
def cfgUSD : PricingConfig := { currency := "USD" }

/-- Itinerary of the tax/markup scenario: two travellers, one per-person line
at 100, quantity 1. -/
def itinC2 : ParsedItinerary :=
  { overview := { num_days := 1, num_people := 2 }
    days := [{ day := 1,
               per_person := [{ service := "Entrance ticket", unitPrice := some 100,
                                quantity := some 1 }] }] }

/-- Itinerary with a single per-group line at 50 and `n` travellers. -/
def itinOnePerGroup50 (n : ℚ) : ParsedItinerary :=
  { overview := { num_days := 1, num_people := n }
    days := [{ day := 1,
               per_group := [{ service := "Private transfer", unitPrice := some 50,
                               quantity := some 1 }] }] }

/-- The boundary-scenario service: airport pickup in Cairo, per group. -/
def svcAirportPickup : DetectedService :=
  { day := 1, category := .transportation, description := "Airport pickup",
    quantity := 1, cost_basis := .per_group, location := some "Cairo" }

/-- The boundary-scenario catalog entry whose category is `accommodation`. -/
def entryAccommodationCairo : Price :=
  { service_name := "Cairo Airport Pickup", category := some "accommodation",
    location := some "Cairo", cost_basis := .per_group, unit_price := 20,
    currency := "EUR" }

/-- A malformed detected service: negative quantity. -/
def svcNegativeQty : DetectedService :=
  { day := 1, category := .other, description := "Broken service",
    quantity := -1, cost_basis := .per_person }

/-- A matched result carrying currency USD. -/
def matchWithUSD : PriceMatch :=
  { service := svcAirportPickup, matched := true, price := some 20,
    currency := some "USD", confidence := some 90 }

/-- A matched result whose resolved price is zero. -/
def matchWithZeroPrice : PriceMatch :=
  { service := svcAirportPickup, matched := true, price := some 0,
    currency := some "EUR", confidence := some 90 }

/-! ### Specification-side sums (stated from the spec's wording, to be
compared against the embedded code) -/

/-- Net sum of all per-group lines of an itinerary, one traveller share not
applied (the spec's "separately-tracked per-group net sum"). -/
def perGroupNet (itin : ParsedItinerary) : ℚ :=
  (itin.days.map (fun d => (d.per_group.map svcContrib).sum)).sum

/-- Net sum of all per-person lines of an itinerary, per single person (the
spec's "sum of per-person contributions"). -/
def perPersonNetUnit (itin : ParsedItinerary) : ℚ :=
  (itin.days.map (fun d => (d.per_person.map svcContrib).sum)).sum

/-- The spec's per-person total: price × quantity over matched results with
cost basis `per_person` (a missing price reads as 0). -/
def perPersonSpecSum (l : List PriceMatch) : ℚ :=
  (((l.filter (fun m => m.matched)).filter
      (fun m => m.service.cost_basis = CostBasis.per_person)).map
    (fun m => m.price.getD 0 * m.service.quantity)).sum

/-- Cost bases the spec groups together: per_group, flat_rate, per_night,
per_day. -/
def isGroupLike : CostBasis → Bool
  | .per_group => true
  | .flat_rate => true
  | .per_night => true
  | .per_day => true
  | .per_person => false

/-- The spec's group-side total: price × quantity over matched results with a
group-like cost basis. -/
def perGroupSpecSum (l : List PriceMatch) : ℚ :=
  (((l.filter (fun m => m.matched)).filter
      (fun m => isGroupLike m.service.cost_basis)).map
    (fun m => m.price.getD 0 * m.service.quantity)).sum

/-! ### Matcher lemmas -/

/-- The first component of the best-match loop is the running maximum of the
scores. -/
lemma bestMatchFold_fst (s : DetectedService) (l : List Price) (acc : ℕ × Option Price) :
    (bestMatchFold s l acc).1 = l.foldl (fun a p => max a (calcScore s p)) acc.1 := by
  induction l generalizing acc with
  | nil => rfl
  | cons p t ih =>
      simp only [bestMatchFold, List.foldl]
      by_cases h : acc.1 < calcScore s p
      · rw [if_pos h, ih]
        congr 1
        exact (Nat.max_eq_right h.le).symm
      · rw [if_neg h, ih]
        congr 1
        exact (Nat.max_eq_left (Nat.le_of_not_lt h)).symm

/-- Once a best entry is recorded it is never cleared. -/
lemma bestMatchFold_some (s : DetectedService) (l : List Price) (b : ℕ) (p0 : Price) :
    ((bestMatchFold s l (b, some p0)).2).isSome := by
  induction l generalizing b p0 with
  | nil => rfl
  | cons p t ih =>
      simp only [bestMatchFold]
      by_cases h : b < calcScore s p
      · rw [if_pos h]; exact ih _ _
      · rw [if_neg h]; exact ih _ _

/-- If the loop never recorded an entry, the best score is still the initial
one. -/
lemma bestMatchFold_none_fst (s : DetectedService) (l : List Price) (b : ℕ)
    (h : (bestMatchFold s l (b, none)).2 = none) :
    (bestMatchFold s l (b, none)).1 = b := by
  induction l generalizing b with
  | nil => rfl
  | cons p t ih =>
      simp only [bestMatchFold] at h ⊢
      by_cases hlt : b < calcScore s p
      · rw [if_pos hlt] at h
        have := bestMatchFold_some s t (calcScore s p) p
        rw [h] at this
        exact absurd this (by simp)
      · rw [if_neg hlt] at h ⊢
        exact ih b h

/-- The matched flag computed by `matchOne` is exactly the ≥ 60 test on the
best score over the catalog. -/
lemma matchOne_matched_iff (s : DetectedService) (catalog : List Price) :
    (matchOne s catalog).matched = true ↔ 60 ≤ bestScoreOver s catalog := by
  have hfst : (bestMatchFold s catalog (0, none)).1 = bestScoreOver s catalog := by
    simpa using bestMatchFold_fst s catalog (0, none)
  unfold matchOne
  cases h2 : (bestMatchFold s catalog (0, none)).2 with
  | none =>
      have h1 : (bestMatchFold s catalog (0, none)).1 = 0 :=
        bestMatchFold_none_fst s catalog 0 h2
      have hb : bestScoreOver s catalog = 0 := by rw [← hfst, h1]
      simp [h2, hb]
  | some bm =>
      by_cases h60 : 60 ≤ (bestMatchFold s catalog (0, none)).1
      · simp [h2, h60, hfst ▸ h60]
      · have : ¬ 60 ≤ bestScoreOver s catalog := by rw [← hfst]; exact h60
        simp [h2, h60, this]

/-! ### Claim theorems — Matcher -/

/-- C3: for every service and catalog entry the score is min(30, 10 × number
of search terms — the service's description, category and location — found
as case-insensitive substrings of the concatenated entry text), plus 40 for a
keyword-table category match, plus 20 for a location containment, plus 10 for
an exact cost-basis match, capped at 100; hence (over ℕ, so ≥ 0 trivially)
the score always lies in [0, 100]. -/
theorem matcher_score_formula_bounds (s : DetectedService) (p : Price) :
    calcScore s p =
      min 100 (min 30 (10 * textMatchCount s p)
        + (if categoryMatches s.category p.category then 40 else 0)
        + (if locationMatches s.location p.location then 20 else 0)
        + (if s.cost_basis = p.cost_basis then 10 else 0))
    ∧ calcScore s p ≤ 100 := by
  constructor
  · unfold calcScore
    rw [Nat.min_comm _ 100, Nat.mul_comm]
  · exact Nat.min_le_right _ _

/-- C4: `matchPrices` returns one result per service in order (it is the map
of the per-service matcher); a result is matched exactly when the best score
over the catalog reaches 60; on an empty catalog every service is unmatched
and carries the generated hint — an empty catalog is not an error. -/
theorem matcher_threshold_policy (services : List DetectedService) (catalog : List Price) :
    matchPrices services catalog = services.map (fun s => matchOne s catalog)
    ∧ (∀ s : DetectedService, (matchOne s catalog).matched = true ↔ 60 ≤ bestScoreOver s catalog)
    ∧ (∀ s : DetectedService, (matchOne s []).matched = false
        ∧ (matchOne s []).hint = some (generateMissingPriceHint s)) := by
  refine ⟨rfl, fun s => matchOne_matched_iff s catalog, fun s => ⟨rfl, rfl⟩⟩

/-- C5 counterexample: on the documented boundary scenario, the code's score
is 50, not 60, and the service is NOT matched — the whole description is a
single search term, so the text component is 20, not 30. -/
theorem boundary_scenario_counterexample :
    calcScore svcAirportPickup entryAccommodationCairo = 50
    ∧ calcScore svcAirportPickup entryAccommodationCairo ≠ 60
    ∧ (matchOne svcAirportPickup [entryAccommodationCairo]).matched = false := by
  decide

/-- C5 amended: two of the three search terms (the whole description
"airport pickup" and the location "cairo") occur in the entry text, the
category term does not, so the score is 20 (text) + 0 (category) + 20
(location) + 10 (cost basis) = 50, below the 60 threshold: the service is
reported unmatched, with the transportation hint. -/
theorem boundary_scenario_amended :
    textMatchCount svcAirportPickup entryAccommodationCairo = 2
    ∧ min 30 (10 * textMatchCount svcAirportPickup entryAccommodationCairo) = 20
    ∧ calcScore svcAirportPickup entryAccommodationCairo = 50
    ∧ (matchOne svcAirportPickup [entryAccommodationCairo]).matched = false
    ∧ (matchOne svcAirportPickup [entryAccommodationCairo]).hint
        = some (generateMissingPriceHint svcAirportPickup) := by
  decide

/-- C7 counterexample: a malformed service (negative quantity) is not
rejected — `matchPrices` runs the match loop and returns an ordinary result
for it, with no validation error of any kind. -/
theorem matcher_no_validation_counterexample :
    matchPrices [svcNegativeQty] []
      = [{ service := svcNegativeQty, matched := false,
           hint := some (generateMissingPriceHint svcNegativeQty) }] := rfl

/-- C7 amended: the Matcher performs no input validation at all: every input
list, malformed entries included, is processed to completion, one MatchResult
per service, each result either matched or carrying the generated hint; no
error is ever signalled (the function has no failure path). -/
theorem matcher_no_validation_amended (services : List DetectedService) (catalog : List Price) :
    (matchPrices services catalog).length = services.length
    ∧ ∀ s : DetectedService, (matchOne s catalog).matched = true
        ∨ (matchOne s catalog).hint = some (generateMissingPriceHint s) := by
  refine ⟨by simp [matchPrices], fun s => ?_⟩
  unfold matchOne
  rcases h2 : (bestMatchFold s catalog (0, none)).2 with _ | bm
  · right; simp [h2]
  · cases h60 : decide (60 ≤ (bestMatchFold s catalog (0, none)).1) with
    | false => right; simp [h2, h60]
    | true => left; simp [h2, h60]

/-! ### Aggregator lemmas -/

/-- Left folds that keep adding are the initial value plus the mapped sum. -/
lemma foldl_add_map_sum {α : Type} (f : α → ℚ) (l : List α) (a : ℚ) :
    l.foldl (fun acc x => acc + f x) a = a + (l.map f).sum := by
  induction l generalizing a with
  | nil => simp
  | cons x t ih => simp [ih]; ring

/-- One day's total of `calculatePricing`: per-group sum plus per-person sum
times the traveller count. -/
lemma dayTotalCalc_eq (n : ℚ) (d : DailyBreakdown) :
    dayTotalCalc n d
      = (d.per_group.map svcContrib).sum + (d.per_person.map svcContrib).sum * n := by
  unfold dayTotalCalc
  rw [foldl_add_map_sum, foldl_add_map_sum (fun s => svcContrib s * n), List.sum_map_mul_right]
  ring

/-- The `totalNet` accumulated by `calculatePricing`, split into group and
per-person parts. -/
lemma totalNet_eq (itin : ParsedItinerary) (n : ℚ) :
    itin.days.foldl (fun acc d => acc + dayTotalCalc n d) 0
      = perGroupNet itin + perPersonNetUnit itin * n := by
  rw [foldl_add_map_sum (fun d => dayTotalCalc n d)]
  simp only [dayTotalCalc_eq, perGroupNet, perPersonNetUnit]
  rw [show (itin.days.map fun d =>
        (d.per_group.map svcContrib).sum + (d.per_person.map svcContrib).sum * n)
      = itin.days.map (fun d => (fun d => (d.per_group.map svcContrib).sum) d
        + (fun d => (d.per_person.map svcContrib).sum * n) d) from rfl,
    List.sum_map_add, List.sum_map_mul_right]
  ring

/-- The per-person running total of the `compileAnalysis` loop. -/
lemma totalsFold_perPersonTotal (n : ℚ) (l : List PriceMatch) (st : TotalsState) :
    (l.foldl (totalsStep n) st).perPersonTotal
      = st.perPersonTotal
        + ((l.filter (fun m => m.service.cost_basis = CostBasis.per_person)).map
            (fun m => m.price.getD 0 * m.service.quantity)).sum := by
  induction l generalizing st with
  | nil => simp
  | cons m t ih =>
      simp only [List.foldl_cons, List.filter_cons]
      rcases hp : m.price with _ | p
      · rw [show totalsStep n st m = st by simp [totalsStep, hp], ih]
        by_cases hb : m.service.cost_basis = CostBasis.per_person <;> simp [hb, hp]
      · by_cases hz : p = 0
        · rw [show totalsStep n st m = st by simp [totalsStep, hp, hz], ih]
          by_cases hb : m.service.cost_basis = CostBasis.per_person <;> simp [hb, hp, hz]
        · by_cases hb : m.service.cost_basis = CostBasis.per_person
          · rw [show totalsStep n st m
                = { st with
                    perPersonTotal := st.perPersonTotal + p * m.service.quantity,
                    categoryTotals := updateCat st.categoryTotals m.service.category
                      (p * m.service.quantity * n) } by simp [totalsStep, hp, hz, hb], ih]
            simp [hb, hp]
            ring
          · have hstep : (totalsStep n st m).perPersonTotal = st.perPersonTotal := by
              cases hcb : m.service.cost_basis <;> simp_all [totalsStep, hp, hz]
            rw [ih, hstep]
            simp [hb]

/-- The group-side running total of the `compileAnalysis` loop. -/
lemma totalsFold_perGroupTotal (n : ℚ) (l : List PriceMatch) (st : TotalsState) :
    (l.foldl (totalsStep n) st).perGroupTotal
      = st.perGroupTotal
        + ((l.filter (fun m => isGroupLike m.service.cost_basis)).map
            (fun m => m.price.getD 0 * m.service.quantity)).sum := by
  induction l generalizing st with
  | nil => simp
  | cons m t ih =>
      simp only [List.foldl_cons, List.filter_cons]
      rcases hp : m.price with _ | p
      · rw [show totalsStep n st m = st by simp [totalsStep, hp], ih]
        by_cases hb : isGroupLike m.service.cost_basis = true <;> simp [hb, hp]
      · by_cases hz : p = 0
        · rw [show totalsStep n st m = st by simp [totalsStep, hp, hz], ih]
          by_cases hb : isGroupLike m.service.cost_basis = true <;> simp [hb, hp, hz]
        · rcases hcb : m.service.cost_basis with _ | _ | _ | _ | _
          · have hstep : (totalsStep n st m).perGroupTotal = st.perGroupTotal := by
              simp [totalsStep, hp, hz, hcb]
            rw [ih, hstep]
            simp [isGroupLike, hcb]
          all_goals
            (have hstep : (totalsStep n st m).perGroupTotal
                = st.perGroupTotal + p * m.service.quantity := by
              simp [totalsStep, hp, hz, hcb]
             rw [ih, hstep]
             simp [isGroupLike, hcb, hp]
             ring)

/-! ### Claim theorems — Aggregators -/

/-- C1 counterexample: a single per-group match at 50 with no per-person
matches contributes 50 / numPeople to `net_per_person` — 25 for two
travellers, 10 for five — not 0, and not independent of numPeople. -/
theorem per_group_division_counterexample :
    (calculatePricing (itinOnePerGroup50 2) cfgDefault).net_per_person = 25
    ∧ (calculatePricing (itinOnePerGroup50 5) cfgDefault).net_per_person = 10
    ∧ (25 : ℚ) ≠ 0 := by
  norm_num [calculatePricing, itinOnePerGroup50, cfgDefault, dayTotalCalc, svcContrib, jsQty]

/-- C1 amended: `net_per_person` is the WHOLE net — per-group amounts
included — divided by numPeople, and `sell_per_group` is
`sell_per_person × numPeople` with no separate per-group add-back; that
product algebraically equals the joint net inflated by the tax-then-markup
factor, so the group total of a lone per-group 50 match is 67.2 = 336/5
whatever the traveller count, while its `net_per_person` contribution is
50 / numPeople, not 0. -/
theorem per_group_division_amended (itin : ParsedItinerary) (config : PricingConfig)
    (h : itin.overview.num_people ≠ 0) :
    (calculatePricing itin config).net_per_person
        = (perGroupNet itin + perPersonNetUnit itin * itin.overview.num_people)
            / itin.overview.num_people
    ∧ (calculatePricing itin config).sell_per_group
        = (perGroupNet itin + perPersonNetUnit itin * itin.overview.num_people)
            * (1 + config.tax_rate) * (1 + config.markup_rate)
    ∧ (∀ n : ℚ, n ≠ 0 →
        (calculatePricing (itinOnePerGroup50 n) cfgDefault).sell_per_group = 336 / 5
        ∧ (calculatePricing (itinOnePerGroup50 n) cfgDefault).net_per_person = 50 / n) := by
  refine ⟨?_, ?_, ?_⟩
  · simp only [calculatePricing, totalNet_eq]
  · simp only [calculatePricing, totalNet_eq]
    field_simp
    ring
  · intro n hn
    constructor
    · simp only [calculatePricing, itinOnePerGroup50, cfgDefault, dayTotalCalc, svcContrib,
        jsQty, List.foldl]
      norm_num
      field_simp
      ring
    · simp only [calculatePricing, itinOnePerGroup50, dayTotalCalc, svcContrib, jsQty,
        List.foldl]
      norm_num

/-- C1 amended, witness at two travellers. -/
theorem per_group_division_amended_witness :
    (2 : ℚ) ≠ 0
    ∧ (calculatePricing (itinOnePerGroup50 2) cfgDefault).net_per_person
        = (perGroupNet (itinOnePerGroup50 2)
            + perPersonNetUnit (itinOnePerGroup50 2) * 2) / 2 :=
  ⟨by norm_num,
    (per_group_division_amended (itinOnePerGroup50 2) cfgDefault (by norm_num [itinOnePerGroup50])).1⟩

/-- C2: the NewTourPage aggregator computes tax on the per-person net, markup
on net plus tax (compounded), and their sum as the per-person sell; on the
documented scenario (two travellers, one per-person 100 × 1, rates 0.12 and
0.20) it yields exactly 100, 12, 22.4 = 112/5, 134.4 = 672/5 and
268.8 = 1344/5. -/
theorem aggregator_tax_markup_formula :
    (∀ (itin : ParsedItinerary) (config : PricingConfig),
        (calculatePricing itin config).tax_amount
            = (calculatePricing itin config).net_per_person * config.tax_rate
        ∧ (calculatePricing itin config).markup_amount
            = ((calculatePricing itin config).net_per_person
                + (calculatePricing itin config).tax_amount) * config.markup_rate
        ∧ (calculatePricing itin config).sell_per_person
            = (calculatePricing itin config).net_per_person
                + (calculatePricing itin config).tax_amount
                + (calculatePricing itin config).markup_amount)
    ∧ (calculatePricing itinC2 cfgDefault).net_per_person = 100
    ∧ (calculatePricing itinC2 cfgDefault).tax_amount = 12
    ∧ (calculatePricing itinC2 cfgDefault).markup_amount = 112 / 5
    ∧ (calculatePricing itinC2 cfgDefault).sell_per_person = 672 / 5
    ∧ (calculatePricing itinC2 cfgDefault).sell_per_group = 1344 / 5 := by
  refine ⟨fun itin config => ⟨rfl, rfl, rfl⟩, ?_, ?_, ?_, ?_, ?_⟩
  all_goals
    norm_num [calculatePricing, itinC2, cfgDefault, dayTotalCalc, svcContrib, jsQty]

/-- C6 counterexample: at rounding increment 1 the displayed figure is the
nearest integer, not the raw value — the scenario's raw per-person sell
134.4 displays as 134. -/
theorem rounding_increment_one_counterexample :
    roundToIncrement 1 ((calculatePricing itinC2 cfgDefault).sell_per_person) = 134
    ∧ (calculatePricing itinC2 cfgDefault).sell_per_person ≠ 134 := by
  have h : (calculatePricing itinC2 cfgDefault).sell_per_person = 672 / 5 := by
    norm_num [calculatePricing, itinC2, cfgDefault, dayTotalCalc, svcContrib, jsQty]
  rw [h]
  norm_num [roundToIncrement, jsRound]

/-- C6 amended: every displayed figure is
`Math.round(raw / increment) * increment`; intermediate sums stay unrounded
(the scenario's raw sell stays exactly 672/5 = 134.4); at increment 1 the
displayed value is `Math.round(raw)`, which equals the raw value only when
the raw value is an integer. -/
theorem rounding_law_amended (increment amount : ℚ) :
    roundToIncrement increment amount = (jsRound (amount / increment) : ℚ) * increment
    ∧ roundToIncrement 1 amount = (jsRound amount : ℚ)
    ∧ (∀ n : ℤ, amount = (n : ℚ) → roundToIncrement 1 amount = amount)
    ∧ (calculatePricing itinC2 cfgDefault).sell_per_person = 672 / 5 := by
  refine ⟨rfl, by simp [roundToIncrement], fun n hn => ?_,
    by norm_num [calculatePricing, itinC2, cfgDefault, dayTotalCalc, svcContrib, jsQty]⟩
  subst hn
  simp only [roundToIncrement, jsRound, div_one, mul_one]
  rw [Int.floor_int_add]
  norm_num

/-- C6 amended, witness at raw value 150 and increment 1. -/
theorem rounding_law_amended_witness :
    roundToIncrement 1 ((150 : ℤ) : ℚ) = ((150 : ℤ) : ℚ) :=
  (rounding_law_amended 50 ((150 : ℤ) : ℚ)).2.2.1 150 rfl

/-- C8 counterexample: with no matched results the aggregated currency is the
hard-coded literal "EUR", not the configured currency (here "USD") — indeed
`compileAnalysis` receives no configuration at all. -/
theorem currency_fallback_counterexample :
    (compileAnalysis [] 2 3).pricing.currency = "EUR"
    ∧ (compileAnalysis [] 2 3).pricing.currency ≠ cfgUSD.currency := by
  constructor
  · rfl
  · intro hcon
    exact absurd ((rfl : (compileAnalysis [] 2 3).pricing.currency = "EUR") ▸ hcon)
      (by decide)

/-- C8 amended: the result currency is the first matched result's currency
when one exists and is non-empty, and otherwise the hard-coded default
"EUR"; the PricingConfig's currency is never consulted (the function takes
no config). -/
theorem currency_selection_amended (matchList : List PriceMatch) (numPeople : ℚ)
    (numDays : ℤ) :
    (matchList.filter (fun m => m.matched) = [] →
        (compileAnalysis matchList numPeople numDays).pricing.currency = "EUR")
    ∧ (∀ (m : PriceMatch) (t : List PriceMatch) (c : String),
        matchList.filter (fun m => m.matched) = m :: t → m.currency = some c → c ≠ "" →
        (compileAnalysis matchList numPeople numDays).pricing.currency = c) := by
  constructor
  · intro hf
    simp [compileAnalysis, hf, jsOrStr]
  · intro m t c hf hc hne
    simp [compileAnalysis, hf, hc, jsOrStr, hne]

/-- C8 amended, witness: one matched result with currency "USD". -/
theorem currency_selection_amended_witness :
    (compileAnalysis [matchWithUSD] 2 1).pricing.currency = "USD" :=
  (currency_selection_amended [matchWithUSD] 2 1).2 matchWithUSD [] "USD" rfl rfl
    (by decide)

/-- C9: the heuristic `compileAnalysis` applies no tax, markup, exchange rate
or rounding: its per-person total is exactly the plain sum of price ×
quantity over matched per_person results, and its group total is the plain
sum over matched per_group/flat_rate/per_night/per_day results plus the
per-person total times numPeople. -/
theorem heuristic_totals_plain_sums (matchList : List PriceMatch) (numPeople : ℚ)
    (numDays : ℤ) :
    (compileAnalysis matchList numPeople numDays).pricing.per_person_total
        = perPersonSpecSum matchList
    ∧ (compileAnalysis matchList numPeople numDays).pricing.per_group_total
        = perGroupSpecSum matchList + perPersonSpecSum matchList * numPeople := by
  have h1 := totalsFold_perPersonTotal numPeople (matchList.filter (fun m => m.matched))
    ({} : TotalsState)
  have h2 := totalsFold_perGroupTotal numPeople (matchList.filter (fun m => m.matched))
    ({} : TotalsState)
  constructor
  · simp only [compileAnalysis]
    rw [h1]
    simp [perPersonSpecSum]
  · simp only [compileAnalysis]
    rw [h2, h1]
    simp [perGroupSpecSum, perPersonSpecSum]

/-- C10: a matched result with price 0 (or no price) changes none of the
totals and none of the per-category breakdown, yet still counts in
`services_with_prices`; and the CSV importer stores unit price 0 for a "."
or unparsable Base Cost cell, so such entries do reach the analyzer. -/
theorem zero_price_exclusion (matchList : List PriceMatch) (numPeople : ℚ) (numDays : ℤ)
    (zm : PriceMatch) (hm : zm.matched = true)
    (hz : zm.price = none ∨ zm.price = some 0) :
    (compileAnalysis (matchList ++ [zm]) numPeople numDays).pricing.per_person_total
        = (compileAnalysis matchList numPeople numDays).pricing.per_person_total
    ∧ (compileAnalysis (matchList ++ [zm]) numPeople numDays).pricing.per_group_total
        = (compileAnalysis matchList numPeople numDays).pricing.per_group_total
    ∧ (compileAnalysis (matchList ++ [zm]) numPeople numDays).pricing.breakdown_by_category
        = (compileAnalysis matchList numPeople numDays).pricing.breakdown_by_category
    ∧ (compileAnalysis (matchList ++ [zm]) numPeople numDays).summary.services_with_prices
        = (compileAnalysis matchList numPeople numDays).summary.services_with_prices + 1
    ∧ parseBaseCost "." = (some 0, "EUR")
    ∧ parseBaseCost "n/a" = (some 0, "EUR") := by
  have hstep : totalsStep numPeople ((matchList.filter (fun m => m.matched)).foldl
      (totalsStep numPeople) ({} : TotalsState)) zm
      = (matchList.filter (fun m => m.matched)).foldl (totalsStep numPeople)
          ({} : TotalsState) := by
    rcases hz with h | h <;> simp [totalsStep, h]
  have hfilter : (matchList ++ [zm]).filter (fun m => m.matched)
      = matchList.filter (fun m => m.matched) ++ [zm] := by
    simp [List.filter_append, hm]
  refine ⟨?_, ?_, ?_, ?_, rfl, rfl⟩
  all_goals simp [compileAnalysis, hfilter, List.foldl_append, hstep]

/-- C10 witness: appending a concrete zero-price matched result to the empty
match list. -/
theorem zero_price_exclusion_witness :
    (compileAnalysis ([] ++ [matchWithZeroPrice]) 2 1).pricing.per_person_total
        = (compileAnalysis [] 2 1).pricing.per_person_total
    ∧ (compileAnalysis ([] ++ [matchWithZeroPrice]) 2 1).pricing.per_group_total
        = (compileAnalysis [] 2 1).pricing.per_group_total
    ∧ (compileAnalysis ([] ++ [matchWithZeroPrice]) 2 1).pricing.breakdown_by_category
        = (compileAnalysis [] 2 1).pricing.breakdown_by_category
    ∧ (compileAnalysis ([] ++ [matchWithZeroPrice]) 2 1).summary.services_with_prices
        = (compileAnalysis [] 2 1).summary.services_with_prices + 1
    ∧ parseBaseCost "." = (some 0, "EUR")
    ∧ parseBaseCost "n/a" = (some 0, "EUR") :=
  zero_price_exclusion [] 2 1 matchWithZeroPrice rfl (Or.inr rfl)

end PricingApp
